import Mathlib

/-!
Shallow embedding of `src/python/ambassador/envoy/v2/v2route.py`.

Python dicts with a statically known key set are modeled as Lean structures
with `Option` fields for optional keys (per the design notes of the spec,
the artifact is a tagged structured record).  Python `dict.get(k, d)` is
`Option.getD`, Python truthiness is made explicit at each use site, and
Python exceptions (attribute/key errors on `None`) are modeled with
`Except PyErr`.  Machine integers do not overflow in this code, so numeric
fields are `Nat` / `Int`.
-/

namespace AmbV2

/-- A raised Python exception.  `attributeError` stands for attribute access
on a missing attribute or on `None`; `keyError` for a missing dict key. -/
inductive PyErr where
  | attributeError
  | keyError
deriving DecidableEq, Repr

/-- Python `s.startswith(pre)`, on the character lists of the strings (the
core byte-indexed `String.startsWith` does not reduce in the kernel). -/
def pyStartsWith (s pre : String) : Bool := pre.data.isPrefixOf s.data

/-- Python `s.endswith(suf)`. -/
def pyEndsWith (s suf : String) : Bool := suf.data.isSuffixOf s.data

/-- Python `s[n:]` for `0 ≤ n`. -/
def pyDrop (s : String) (n : Nat) : String := ⟨s.data.drop n⟩

/-- Python `s[:-n]` for `0 < n`: all but the last `n` characters. -/
def pyDropRight (s : String) (n : Nat) : String :=
  ⟨s.data.take (s.data.length - n)⟩

/-- Python `s.lower()` (ASCII-adequate for the regex-mode strings used here). -/
def pyToLower (s : String) : String := ⟨s.data.map Char.toLower⟩

/-- The value placed under the single key that `regex_matcher` returns.
`bounded n r` is the dict `"google_re2": ("max_program_size": n), "regex": r`;
`plain r` is the bare regex string emitted in unsafe mode. -/
inductive RegexVal where
  | bounded (max_program_size : Nat) (regex : String)
  | plain (regex : String)
deriving DecidableEq, Repr

/-- The ambassador module configuration surface used by this file:
`regex_type` and `regex_max_size` (queried with `.get` and defaults), and
the module-level `cors` / `retry_policy` defaults (their serialized payloads
are opaque here, modeled as strings). -/
structure AmbassadorModule where
  regex_type : Option String
  regex_max_size : Option Nat
  cors : Option String
  retry_policy : Option String
deriving DecidableEq, Repr

/-- The rate-limit service (`config.ir.ratelimit`): only its domain is read. -/
structure RateLimitSvc where
  domain : String
deriving DecidableEq, Repr

/-- The slice of `V2Config` / `config.ir` that `v2route.py` reads. -/
structure Config where
  edge_stack_allowed : Bool
  ambassador_module : AmbassadorModule
  ratelimit : Option RateLimitSvc
deriving DecidableEq, Repr

/-- Embedding of the module-level function `regex_matcher` (v2route.py:29-55).
Python defaults are `key="regex"`, `safe_key=None`, `re_type=None`; callers
here always pass all arguments explicitly.  The returned one-key dict is the
pair (key, value).  Note `safe_key` is tested with Python truthiness
(`if not safe_key`), so an empty string also falls back to `"safe_" ++ key`,
and the configured `regex_type` is lowercased while an explicit `re_type`
argument is not. -/
def regex_matcher (config : Config) (regex : String) (key : String)
    (safe_key : Option String) (re_type : Option String) : String × RegexVal :=
  let re_type := match re_type with
    | some t => t
    | none => pyToLower (config.ambassador_module.regex_type.getD "safe")
  if re_type ≠ "unsafe" then
    let max_size := config.ambassador_module.regex_max_size.getD 200
    let sk := match safe_key with
      | some s => if s = "" then "safe_" ++ key else s
      | none => "safe_" ++ key
    (sk, RegexVal.bounded max_size regex)
  else
    (key, RegexVal.plain regex)

/-- Embedding of `hostglob_matches` (v2route.py:58-68).  The Python function
returns `True`/`False`/`None`; `None` (the fall-through when a prefix/suffix
test fails) is falsy, so the result is modeled as `Bool`. -/
def hostglob_matches (glob : String) (value : String) : Bool :=
  if glob = "*" then true
  else if pyEndsWith glob "*" then pyStartsWith value (pyDropRight glob 1)
  else if pyStartsWith glob "*" then pyEndsWith value (pyDrop glob 1)
  else value = glob

/-- Modelled from the spec: the path-classification function (`EnvoyRoute`
from `..common`, not part of the sources here) "maps a group to one of
(prefix, path, regex)"; it is treated as an input attribute of the group.
`pfx` is the prefix classification. -/
inductive EnvoyRouteKind where
  | pfx
  | path
  | regex
deriving DecidableEq, Repr

/-- `group['tls_context']`: the two keys read at v2route.py:77-79. -/
structure TLSContext where
  hosts : List String
  secret_info : String
deriving DecidableEq, Repr

/-- The `_sni` annotation block stashed on the artifact (v2route.py:76-80). -/
structure SNIInfo where
  hosts : List String
  secret_info : String
deriving DecidableEq, Repr

/-- A cluster reference; only its stable `envoy_name` is read. -/
structure Cluster where
  envoy_name : String
deriving DecidableEq, Repr

/-- `group['host_redirect']`: its `.service` attribute and optional
`path_redirect` key (v2route.py:166-177). -/
structure HostRedirect where
  service : String
  path_redirect : Option String
deriving DecidableEq, Repr

/-- One entry of `group['headers']` as read by `generate_headers`
(v2route.py:370-385): a name, a value, and a regex flag (Python tests the
`regex` key with truthiness, so it is a `Bool` here).  `name` and `value`
are structurally guaranteed present by the upstream model builder. -/
structure GroupHeader where
  name : String
  value : String
  regex : Bool
deriving DecidableEq, Repr

/-- One entry of `group['query_parameters']` (v2route.py:388-419); `value`
may be genuinely absent (that is the presence-only match case). -/
structure GroupQueryParam where
  name : String
  value : Option String
  regex : Bool
deriving DecidableEq, Repr

/-- The `cookie` sub-dict of a load-balancer policy (v2route.py:432-439). -/
structure Cookie where
  name : Option String
  path : Option String
  ttl : Option String
deriving DecidableEq, Repr

/-- `group['load_balancer']` as read by `generate_hash_policy`
(v2route.py:421-449). -/
structure LoadBalancer where
  policy : Option String
  cookie : Option Cookie
  header : Option String
  source_ip : Option Bool
deriving DecidableEq, Repr

/-- `group['regex_rewrite']` input dict (v2route.py:479-486). -/
structure RegexRewriteCfg where
  pattern : Option String
  substitution : Option String
deriving DecidableEq, Repr

/-- Modelled from the spec: the external rate-limit action translator
(`V2RateLimitAction` from `.v2ratelimitaction`, not part of the sources
here) is "translate(label) -> optional valid-action"; a label is modeled
as its translation result: a validity flag plus the serialized action. -/
structure RLLabel where
  valid : Bool
  action : String
deriving DecidableEq, Repr

/-- A value of the `add_request_headers` / `add_response_headers` dicts
(v2route.py:452-474): either a bare literal or a structured entry with a
`value` and an optional `append` flag. -/
inductive AddHeaderVal where
  | bare (v : String)
  | structured (value : String) (append : Option Bool)
deriving DecidableEq, Repr

/-- A `remove_*_headers` value, which may be a bare scalar or a list
(v2route.py:154-164 wraps the scalar). -/
inductive StrOrList where
  | scalar (s : String)
  | strlist (l : List String)
deriving DecidableEq, Repr

/-- Python truthiness of a `remove_*_headers` value: empty string and empty
list are falsy. -/
def StrOrList.truthy : StrOrList → Bool
  | .scalar s => s ≠ ""
  | .strlist l => l ≠ []

/-- The list normalization at v2route.py:156-157. -/
def StrOrList.normalize : StrOrList → List String
  | .scalar s => [s]
  | .strlist l => l

/-- One shadow target (v2route.py:233-248). -/
structure Shadow where
  weight : Option Nat
  cluster : Cluster
deriving DecidableEq, Repr

/-- The slice of an `IRHTTPMappingGroup` read by this file.  Optional dict
keys are `Option`; `sni` is the truthiness of `group.get('sni')`; `gpfx` is
`group['prefix']` (structurally guaranteed by the IR for HTTP mapping
groups); `envoy_route` is the external path classification. -/
structure Group where
  sni : Bool
  tls_context : Option TLSContext
  precedence : Option Int
  envoy_route : EnvoyRouteKind
  gpfx : String
  case_sensitive : Option Bool
  headers : List GroupHeader
  query_parameters : List GroupQueryParam
  add_request_headers : List (String × AddHeaderVal)
  add_response_headers : List (String × AddHeaderVal)
  remove_request_headers : Option StrOrList
  remove_response_headers : Option StrOrList
  host_redirect : Option HostRedirect
  priority : Option String
  regex_rewrite : Option RegexRewriteCfg
  load_balancer : Option LoadBalancer
  cors : Option String
  retry_policy : Option String
  shadows : List Shadow
  labels : Option (List (String × List RLLabel))
  allow_upgrade : List String
  group_id : String
deriving DecidableEq, Repr

/-- The slice of an `IRBaseMapping` read by this file.  `mpfx` is
`mapping.get('prefix')`.  `extra_keys` counts dict keys of the mapping that
this model does not name individually, so that Python's `len(mapping)` can
be computed; the synthetic empty mapping used for redirect-only groups has
every field `none` and `extra_keys = 0`. -/
structure Mapping where
  mpfx : Option String
  case_sensitive : Option Bool
  weight : Option Nat
  bypass_auth : Option Bool
  timeout_ms : Option Nat
  idle_timeout_ms : Option Nat
  rewrite : Option String
  host_rewrite : Option String
  auto_host_rewrite : Option Bool
  cluster : Option Cluster
  extra_keys : Nat
deriving DecidableEq, Repr

/-- Python `len(mapping)`: the number of keys present in the mapping dict. -/
def Mapping.size (m : Mapping) : Nat :=
  (if m.mpfx.isSome then 1 else 0) + (if m.case_sensitive.isSome then 1 else 0) +
  (if m.weight.isSome then 1 else 0) + (if m.bypass_auth.isSome then 1 else 0) +
  (if m.timeout_ms.isSome then 1 else 0) + (if m.idle_timeout_ms.isSome then 1 else 0) +
  (if m.rewrite.isSome then 1 else 0) + (if m.host_rewrite.isSome then 1 else 0) +
  (if m.auto_host_rewrite.isSome then 1 else 0) + (if m.cluster.isSome then 1 else 0) +
  m.extra_keys

/-- The `runtime_fraction` dict of the match clause (v2route.py:93-101):
`default_value` flattened to its `numerator`/`denominator` pair, plus the
optional `runtime_key`. -/
structure RuntimeFraction where
  numerator : Nat
  denominator : String
  runtime_key : Option String
deriving DecidableEq, Repr

/-- The path-form field of the match clause: exactly one of the Python keys
`prefix`, `path`, or a regex matcher field (whose key is `safe_regex` or
`regex` etc., as returned by `regex_matcher`). -/
inductive PathMatch where
  | pfx (s : String)
  | path (s : String)
  | regexField (f : String × RegexVal)
deriving DecidableEq, Repr

/-- One emitted header matcher (v2route.py:375-383): `name` plus either an
`exact_match` or the single field added by `regex_matcher`. -/
structure HeaderMatch where
  name : String
  exact_match : Option String
  regexField : Option (String × RegexVal)
deriving DecidableEq, Repr

/-- The constraint part of one emitted query-parameter matcher
(v2route.py:396-415). -/
inductive QPConstraint where
  | regexSM (f : String × RegexVal)
  | exactSM (v : String)
  | presentMatch
deriving DecidableEq, Repr

/-- One emitted query-parameter matcher: `name` plus its constraint. -/
structure QueryParamMatch where
  name : String
  constraint : QPConstraint
deriving DecidableEq, Repr

/-- The emitted `match` dict (v2route.py:103-135).  `headers` and
`query_parameters` are `none` when their generated lists are empty (the
keys are omitted, not emitted as empty arrays). -/
structure MatchClause where
  case_sensitive : Bool
  runtime_fraction : RuntimeFraction
  pathMatch : PathMatch
  headers : Option (List HeaderMatch)
  query_parameters : Option (List QueryParamMatch)
deriving DecidableEq, Repr

/-- The dict built by `generate_regex_rewrite`: an optional pattern-matcher
field (keyed by the `safe_key` handed to `regex_matcher`, i.e. `pattern`)
and an optional `substitution`. -/
structure RegexRewriteOut where
  pattern : Option (String × RegexVal)
  substitution : Option String
deriving DecidableEq, Repr

/-- Python `len` of the `generate_regex_rewrite` result dict. -/
def RegexRewriteOut.size (rr : RegexRewriteOut) : Nat :=
  (if rr.pattern.isSome then 1 else 0) + (if rr.substitution.isSome then 1 else 0)

/-- One hash policy dict (v2route.py:432-447): exactly one of the three
shapes `cookie`, `header`, `connection_properties`. -/
inductive HashPolicy where
  | cookie (name : Option String) (path : Option String) (ttl : Option String)
  | headerPol (header_name : String)
  | connectionProperties (source_ip : Bool)
deriving DecidableEq, Repr

/-- Modelled from the spec: the serialized CORS block (`IRCORS` is not part
of the sources here); the spec says the group/module CORS value is
duplicated and "stamp the duplicate's identity to the owning group's id
before serializing", so the output is the opaque payload plus the stamped
group id. -/
structure CorsOut where
  payload : String
  group_id : String
deriving DecidableEq, Repr

/-- The `request_mirror_policy` dict (v2route.py:240-248), with its nested
runtime fraction default value flattened. -/
structure MirrorPolicy where
  cluster : String
  numerator : Nat
  denominator : String
deriving DecidableEq, Repr

/-- One `upgrade_configs` entry (v2route.py:275). -/
structure UpgradeConfig where
  upgrade_type : String
deriving DecidableEq, Repr

/-- One expanded header-to-add entry (v2route.py:452-474). -/
structure AddedHeader where
  key : String
  value : String
  append : Bool
deriving DecidableEq, Repr

/-- The `redirect` clause (v2route.py:170-177). -/
structure RedirectClause where
  host_redirect : String
  path_redirect : Option String
deriving DecidableEq, Repr

/-- The `route` clause (v2route.py:181-277).  `cors` and `retry_policy`
carry serialized payloads (opaque strings) since their producers are
external to these sources. -/
structure RouteClause where
  priority : Option String
  timeout : String
  cluster : String
  idle_timeout : Option String
  regex_rewrite : Option RegexRewriteOut
  prefix_rewrite : Option String
  host_rewrite : Option String
  auto_host_rewrite : Option Bool
  hash_policy : Option (List HashPolicy)
  cors : Option CorsOut
  retry_policy : Option String
  request_mirror_policy : Option MirrorPolicy
  rate_limits : Option (List String)
  upgrade_configs : Option (List UpgradeConfig)
deriving DecidableEq, Repr

/-- The `per_filter_config` dict; its only possible content in this file is
`envoy.ext_authz: disabled` (v2route.py:138-144). -/
structure PerFilterConfig where
  ext_authz_disabled : Bool
deriving DecidableEq, Repr

/-- The compiled Route Artifact: the dict content of a `V2Route` object. -/
structure RouteData where
  sni : Option SNIInfo
  precedence : Option Int
  matchClause : MatchClause
  per_filter_config : Option PerFilterConfig
  request_headers_to_add : Option (List AddedHeader)
  response_headers_to_add : Option (List AddedHeader)
  request_headers_to_remove : Option (List String)
  response_headers_to_remove : Option (List String)
  redirect : Option RedirectClause
  route : Option RouteClause
deriving DecidableEq, Repr

/-- Three decimal digits with leading zeros: the fractional part of
Python's `"%0.3f"`. -/
def pad3 (n : Nat) : String :=
  if n < 10 then "00" ++ toString n
  else if n < 100 then "0" ++ toString n
  else toString n

/-- Python `"%0.3fs" % (ms / 1000.0)` for a nonnegative integer millisecond
count (exact for the integer timeouts the IR carries; seconds, millisecond
precision, trailing `s`). -/
def fmtSeconds (ms : Nat) : String :=
  toString (ms / 1000) ++ "." ++ pad3 (ms % 1000) ++ "s"

/-- The `_sni` stash (v2route.py:76-80): only when `group.get('sni')` is
truthy; reading `group['tls_context']` when it is missing is a key error. -/
def stashSNI (g : Group) : Except PyErr (Option SNIInfo) :=
  if g.sni then
    match g.tls_context with
    | some t => .ok (some { hosts := t.hosts, secret_info := t.secret_info })
    | none => .error .keyError
  else .ok none

/-- The `_precedence` stash (v2route.py:82-83): `if group.get('precedence')`
is a truthiness test, so a precedence of `0` is not stashed. -/
def stashPrecedence (g : Group) : Option Int :=
  match g.precedence with
  | some p => if p ≠ 0 then some p else none
  | none => none

/-- `route_prefix` (v2route.py:87-88): the mapping's own prefix if present,
else the group's. -/
def routePfx (g : Group) (m : Mapping) : String :=
  m.mpfx.getD g.gpfx

/-- Effective case sensitivity (v2route.py:90-91). -/
def effCaseSensitive (g : Group) (m : Mapping) : Bool :=
  match m.case_sensitive with
  | some c => c
  | none => g.case_sensitive.getD true

/-- The optional `runtime_key` (v2route.py:100-101): emitted only when
`len(mapping) > 0`; reading `mapping.cluster` on a mapping without a
cluster raises. -/
def runtimeKey (m : Mapping) : Except PyErr (Option String) :=
  if m.size > 0 then
    match m.cluster with
    | some cl => .ok (some ("routing.traffic_shift." ++ cl.envoy_name))
    | none => .error .attributeError
  else .ok none

/-- The path-form dispatch (v2route.py:108-125).  In the regex case, when
`config.ir.edge_stack_allowed` holds and the stashed precedence (read back
with default `0`) equals `-1000000`, a bounded `safe_regex` matcher with
max program size `200` is hard-coded; otherwise `regex_matcher` is called
with its defaults. -/
def pathMatchOf (cfg : Config) (g : Group) (m : Mapping) : PathMatch :=
  match g.envoy_route with
  | .pfx => .pfx (routePfx g m)
  | .path => .path (routePfx g m)
  | .regex =>
    if cfg.edge_stack_allowed ∧ (stashPrecedence g).getD 0 = -1000000 then
      .regexField ("safe_regex", .bounded 200 (routePfx g m))
    else
      .regexField (regex_matcher cfg (routePfx g m) "regex" none none)

/-- Embedding of `V2Route.generate_headers` (v2route.py:370-385). -/
def generate_headers (cfg : Config) (g : Group) : List HeaderMatch :=
  g.headers.map fun gh =>
    if gh.regex then
      { name := gh.name, exact_match := none,
        regexField := some (regex_matcher cfg gh.value "regex_match" none none) }
    else
      { name := gh.name, exact_match := some gh.value, regexField := none }

/-- Embedding of `V2Route.generate_query_parameters` (v2route.py:388-419).
In the regex branch Python passes `group_query_parameter.get('value')` to
`regex_matcher` unconditionally; a missing value (Python `None`) is modeled
as the empty pattern, a corner no theorem below depends on. -/
def generate_query_parameters (cfg : Config) (g : Group) : List QueryParamMatch :=
  g.query_parameters.map fun q =>
    if q.regex then
      { name := q.name,
        constraint := .regexSM (regex_matcher cfg (q.value.getD "") "regex" none none) }
    else
      match q.value with
      | some v => { name := q.name, constraint := .exactSM v }
      | none => { name := q.name, constraint := .presentMatch }

/-- Embedding of `V2Route.generate_hash_policy` (v2route.py:421-449).  The
Python function returns a dict that is empty unless the load-balancer
policy is `ring_hash` or `maglev` and one of cookie/header/source-ip is
configured (checked in that order); `none` is the empty dict. -/
def generate_hash_policy (g : Group) : Option HashPolicy :=
  match g.load_balancer with
  | none => none
  | some lb =>
    if lb.policy = some "ring_hash" ∨ lb.policy = some "maglev" then
      match lb.cookie with
      | some c => some (.cookie c.name c.path c.ttl)
      | none =>
        match lb.header with
        | some h => some (.headerPol h)
        | none =>
          match lb.source_ip with
          | some sip => some (.connectionProperties sip)
          | none => none
    else none

/-- Embedding of `V2Route.generate_headers_to_add` (v2route.py:452-474):
`append` defaults to `true`, overridden by an explicit flag on a structured
entry. -/
def generate_headers_to_add (hd : List (String × AddHeaderVal)) : List AddedHeader :=
  hd.map fun kv =>
    match kv.2 with
    | .bare s => { key := kv.1, value := s, append := true }
    | .structured v app => { key := kv.1, value := v, append := app.getD true }

/-- Embedding of `V2Route.generate_regex_rewrite` (v2route.py:477-487).
The pattern matcher is built with `key='regex'`, `safe_key='pattern'`,
`re_type='safe'`.  NOTE the Python line 484
`substitution = group_regex_rewrite.get('substitution', None)` sits outside
the `if group_regex_rewrite is not None:` guard, so when the group has no
`regex_rewrite` key the function raises (`None` has no `.get`). -/
def generate_regex_rewrite (cfg : Config) (g : Group) : Except PyErr RegexRewriteOut :=
  match g.regex_rewrite with
  | some grr =>
    let withPat : RegexRewriteOut :=
      match grr.pattern with
      | some p =>
        { pattern := some (regex_matcher cfg p "regex" (some "pattern") (some "safe")),
          substitution := none }
      | none => { pattern := none, substitution := none }
    .ok { withPat with substitution := grr.substitution }
  | none => .error .attributeError

/-- `mapping.cluster.envoy_name` (v2route.py:184): raises on the synthetic
empty mapping. -/
def clusterName (m : Mapping) : Except PyErr String :=
  match m.cluster with
  | some cl => .ok cl.envoy_name
  | none => .error .attributeError

/-- The rate-limit block (v2route.py:251-271): only when a rate-limit
service is configured and the group carries labels; the label set for the
service's domain is translated, invalid actions dropped, and an empty
result emits nothing. -/
def rateLimitsOf (cfg : Config) (g : Group) : Option (List String) :=
  match cfg.ratelimit with
  | none => none
  | some rlsvc =>
    match g.labels with
    | none => none
    | some labels =>
      let rls := (((labels.lookup rlsvc.domain).getD []).filter (·.valid)).map (·.action)
      if rls ≠ [] then some rls else none

/-- The `route` dict construction (v2route.py:181-277), given the already
raised-checked cluster name and regex-rewrite dict. -/
def mkRouteClause (cfg : Config) (g : Group) (m : Mapping) (cluster : String)
    (rr : RegexRewriteOut) : RouteClause :=
  { priority := g.priority,
    timeout := fmtSeconds (m.timeout_ms.getD 3000),
    cluster := cluster,
    idle_timeout := m.idle_timeout_ms.map fmtSeconds,
    regex_rewrite := if rr.size > 0 then some rr else none,
    prefix_rewrite :=
      if rr.size > 0 then none
      else match m.rewrite with
        | some s => if s ≠ "" then some s else none
        | none => none,
    host_rewrite := m.host_rewrite,
    auto_host_rewrite := m.auto_host_rewrite,
    hash_policy :=
      match generate_hash_policy g with
      | some hp => some [hp]
      | none => none,
    cors :=
      (match g.cors with
        | some c => some c
        | none => cfg.ambassador_module.cors).map
        (fun c => { payload := c, group_id := g.group_id }),
    retry_policy :=
      match g.retry_policy with
      | some rp => some rp
      | none => cfg.ambassador_module.retry_policy,
    request_mirror_policy :=
      match g.shadows with
      | [] => none
      | sh :: _ =>
        some { cluster := sh.cluster.envoy_name,
               numerator := sh.weight.getD 100, denominator := "HUNDRED" },
    rate_limits := rateLimitsOf cfg g,
    upgrade_configs :=
      if g.allow_upgrade.isEmpty then none
      else some (g.allow_upgrade.map fun proto => { upgrade_type := proto }) }

/-- The `redirect` dict (v2route.py:168-177); `path_redirect` is gated by
truthiness, so an empty string is dropped. -/
def mkRedirectClause (hr : HostRedirect) : RedirectClause :=
  { host_redirect := hr.service,
    path_redirect :=
      match hr.path_redirect with
      | some s => if s ≠ "" then some s else none
      | none => none }

/-- The `remove_*_headers` normalization (v2route.py:154-164). -/
def removeList : Option StrOrList → Option (List String)
  | some sl => if sl.truthy then some sl.normalize else none
  | none => none

/-- Embedding of the match-clause construction inside `V2Route.__init__`
(v2route.py:85-135). -/
def buildMatch (cfg : Config) (g : Group) (m : Mapping) : Except PyErr MatchClause := do
  let rk ← runtimeKey m
  let headers := generate_headers cfg g
  let query_parameters := generate_query_parameters cfg g
  .ok { case_sensitive := effCaseSensitive g m,
        runtime_fraction :=
          { numerator := m.weight.getD 100, denominator := "HUNDRED", runtime_key := rk },
        pathMatch := pathMatchOf cfg g m,
        headers := if headers.length > 0 then some headers else none,
        query_parameters :=
          if query_parameters.length > 0 then some query_parameters else none }

/-- The fields attached to the artifact before the redirect/route branch
(v2route.py:76-164): SNI/precedence stashes, the match clause, per-filter
config, and header add/remove lists. -/
def mkBase (sni : Option SNIInfo) (g : Group) (m : Mapping) (mc : MatchClause) : RouteData :=
  { sni := sni,
    precedence := stashPrecedence g,
    matchClause := mc,
    per_filter_config :=
      if m.bypass_auth.getD false then some { ext_authz_disabled := true } else none,
    request_headers_to_add :=
      if g.add_request_headers.isEmpty then none
      else some (generate_headers_to_add g.add_request_headers),
    response_headers_to_add :=
      if g.add_response_headers.isEmpty then none
      else some (generate_headers_to_add g.add_response_headers),
    request_headers_to_remove := removeList g.remove_request_headers,
    response_headers_to_remove := removeList g.remove_response_headers,
    redirect := none,
    route := none }

/-- Embedding of `V2Route.__init__` (v2route.py:72-277): the compilation of
one (config, group, mapping) triple into a Route Artifact, or the raised
exception.  The raise points, in Python evaluation order: the
`tls_context` key lookup (line 78), `mapping.cluster` for the runtime key
(line 101), `mapping.cluster` for the route cluster (line 184), and the
`generate_regex_rewrite` call (line 192, see its doc comment). -/
def buildRoute (cfg : Config) (g : Group) (m : Mapping) : Except PyErr RouteData := do
  let sni ← stashSNI g
  let mc ← buildMatch cfg g m
  let base := mkBase sni g m mc
  match g.host_redirect with
  | some hr => .ok { base with redirect := some (mkRedirectClause hr) }
  | none => do
    let cluster ← clusterName m
    let rr ← generate_regex_rewrite cfg g
    .ok { base with route := some (mkRouteClause cfg g m cluster rr) }

/-- The base host set of `host_constraints` (v2route.py:295): the recorded
SNI hosts if present, else the universal wildcard.  Python sets are modeled
as `Finset String`. -/
def baseHostSet (r : RouteData) : Finset String :=
  match r.sni with
  | some s => s.hosts.toFinset
  | none => {"*"}

/-- The header scan of `host_constraints` (v2route.py:300-305): the first
header matcher named `:authority` carrying an `exact_match` decides the
result; any other header is skipped. -/
def hostConstraintScan : List HeaderMatch → Finset String → Finset String
  | [], ret => ret
  | h :: rest, ret =>
    match h.exact_match with
    | some em =>
      if h.name = ":authority" then
        if ∃ glob ∈ ret, hostglob_matches glob em then {em} else ∅
      else hostConstraintScan rest ret
    | none => hostConstraintScan rest ret

/-- Embedding of `V2Route.host_constraints` (v2route.py:280-307). -/
def host_constraints (r : RouteData) (prune_unreachable_routes : Bool) : Finset String :=
  let ret := baseHostSet r
  if prune_unreachable_routes then
    hostConstraintScan (r.matchClause.headers.getD []) ret
  else ret

/-- A cached route object.  Python object identity is modeled with an
allocation id `oid`: each cache-miss compilation allocates a fresh id, so
two route objects are the same Python object exactly when their `oid`s
agree.  `cache_key` is the identity forced onto the object at
v2route.py:324. -/
structure RouteObj where
  oid : Nat
  cache_key : String
  data : RouteData
deriving DecidableEq, Repr

/-- Modelled from the spec: `config.cache` (the `Cacheable` store from
`...cache`, not part of the sources here).  Per the spec it is a store
keyed by the cache key (`config.cache[key]`, `config.cache.add(route)`
inserting under the route's forced key) plus a recorded dependency link
graph from groups to artifacts (`config.cache.link`); `next_oid` is the
allocation counter backing the object-identity model. -/
structure Cache where
  store : List (String × RouteObj)
  links : List (String × Nat)
  next_oid : Nat
deriving DecidableEq, Repr

/-- Association-list lookup for the cache store (`config.cache[key]`). -/
def assocFind : List (String × RouteObj) → String → Option RouteObj
  | [], _ => none
  | kv :: rest, key => if kv.1 = key then some kv.2 else assocFind rest key

/-- `config.cache[cache_key]`. -/
def Cache.find (c : Cache) (k : String) : Option RouteObj :=
  assocFind c.store k

/-- Embedding of `V2Route.get_route` (v2route.py:310-337).  On a miss the
route is compiled (which may raise), its cache key is forced to the
requested key, it is added to the store and linked to the group; on a hit
the stored object is returned and the cache is untouched. -/
def get_route (cfg : Config) (cache : Cache) (cache_key : String)
    (irgroup : Group) (m : Mapping) : Except PyErr (RouteObj × Cache) :=
  match cache.find cache_key with
  | none => do
    let data ← buildRoute cfg irgroup m
    let route : RouteObj := { oid := cache.next_oid, cache_key := cache_key, data := data }
    .ok (route,
      { store := (cache_key, route) :: cache.store,
        links := (irgroup.group_id, route.oid) :: cache.links,
        next_oid := cache.next_oid + 1 })
  | some cached => .ok (cached, cache)

/-- A configuration with nothing set: not privileged, no module overrides,
no rate-limit service. -/
def cfg0 : Config :=
  { edge_stack_allowed := false,
    ambassador_module :=
      { regex_type := none, regex_max_size := none, cors := none, retry_policy := none },
    ratelimit := none }

/-- A plain HTTP mapping group: prefix `/foo/`, prefix classification, and
every optional input absent. -/
def g0 : Group :=
  { sni := false, tls_context := none, precedence := none,
    envoy_route := .pfx, gpfx := "/foo/", case_sensitive := none,
    headers := [], query_parameters := [],
    add_request_headers := [], add_response_headers := [],
    remove_request_headers := none, remove_response_headers := none,
    host_redirect := none, priority := none, regex_rewrite := none,
    load_balancer := none, cors := none, retry_policy := none,
    shadows := [], labels := none, allow_upgrade := [], group_id := "grp" }

/-- The synthetic empty mapping used for redirect-only groups: the empty
dict. -/
def m0 : Mapping :=
  { mpfx := none, case_sensitive := none, weight := none, bypass_auth := none,
    timeout_ms := none, idle_timeout_ms := none, rewrite := none,
    host_rewrite := none, auto_host_rewrite := none, cluster := none,
    extra_keys := 0 }

/-- The mapping of the end-to-end scenario: weight 100, cluster `c1`, all
timeouts unset, no rewrite. -/
def mC2 : Mapping :=
  { m0 with weight := some 100, cluster := some { envoy_name := "c1" } }

/-- The successful result of a compilation, if any. -/
def okData (e : Except PyErr RouteData) : Option RouteData :=
  match e with
  | .ok r => some r
  | .error _ => none

/-- A placeholder artifact used only as an `Option.getD` default in the
concrete evaluations below (never the actual value there). -/
def junkRouteData : RouteData :=
  { sni := none, precedence := none,
    matchClause :=
      { case_sensitive := true,
        runtime_fraction := { numerator := 0, denominator := "", runtime_key := none },
        pathMatch := .pfx "", headers := none, query_parameters := none },
    per_filter_config := none,
    request_headers_to_add := none, response_headers_to_add := none,
    request_headers_to_remove := none, response_headers_to_remove := none,
    redirect := none, route := none }

/-- A placeholder route clause, same role as `junkRouteData`. -/
def junkRouteClause : RouteClause :=
  { priority := none, timeout := "", cluster := "", idle_timeout := none,
    regex_rewrite := none, prefix_rewrite := none, host_rewrite := none,
    auto_host_rewrite := none, hash_policy := none, cors := none,
    retry_policy := none, request_mirror_policy := none, rate_limits := none,
    upgrade_configs := none }

/-- `g0` with a present-but-empty `regex_rewrite` dict, which sidesteps the
crash in `generate_regex_rewrite` while still configuring no rewrite. -/
def gRRempty : Group :=
  { g0 with regex_rewrite := some { pattern := none, substitution := none } }

/-- `mC2` plus a literal rewrite string. -/
def mC1 : Mapping := { mC2 with rewrite := some "/bar" }

/-- A host-redirect-only group (no route clause is built for it, so the
regex-rewrite code is never reached). -/
def gRed : Group :=
  { g0 with host_redirect := some { service := "svc", path_redirect := none } }

/-- The artifact compiled for the redirect group and the synthetic empty
mapping. -/
def rC8 : RouteData := (okData (buildRoute cfg0 gRed m0)).getD junkRouteData

/-- A privileged-mode configuration whose global regex mode is `unsafe`. -/
def cfgU : Config :=
  { edge_stack_allowed := true,
    ambassador_module :=
      { regex_type := some "unsafe", regex_max_size := none, cors := none,
        retry_policy := none },
    ratelimit := none }

/-- A regex-classified redirect group carrying the sentinel precedence. -/
def gC5 : Group :=
  { gRed with envoy_route := .regex, precedence := some (-1000000) }

/-- The artifact compiled for `gC5` under `cfgU`. -/
def rC5 : RouteData := (okData (buildRoute cfgU gC5 m0)).getD junkRouteData

/-- A group with a ring-hash load balancer configured with a header. -/
def gC9 : Group :=
  { gRRempty with
    load_balancer :=
      some { policy := some "ring_hash", cookie := none, header := some "x-user",
             source_ip := none } }

/-- The artifact compiled for `gC9`. -/
def rC9 : RouteData := (okData (buildRoute cfg0 gC9 mC2)).getD junkRouteData

/-- The route clause of `rC9`. -/
def rcC9 : RouteClause := rC9.route.getD junkRouteClause

/-- The predicate of the `host_constraints` header scan: named `:authority`
and carrying an `exact_match`. -/
def isAuthorityExact (h : HeaderMatch) : Bool :=
  h.name = ":authority" && h.exact_match.isSome

/-- An exact `:authority` header matcher for `api.example.com`. -/
def hdC7 : HeaderMatch :=
  { name := ":authority", exact_match := some "api.example.com", regexField := none }

/-- An exact `:authority` header matcher for `other.example.com`. -/
def hdC7b : HeaderMatch :=
  { name := ":authority", exact_match := some "other.example.com", regexField := none }

/-- A match clause whose only header matcher is an exact `:authority`
matcher for `api.example.com`. -/
def mcC7 : MatchClause :=
  { case_sensitive := true,
    runtime_fraction := { numerator := 100, denominator := "HUNDRED", runtime_key := none },
    pathMatch := .pfx "/",
    headers := some [hdC7],
    query_parameters := none }

/-- An artifact with SNI hosts `api.example.com` and the matcher of `mcC7`. -/
def rC7 : RouteData :=
  { junkRouteData with
    sni := some { hosts := ["api.example.com"], secret_info := "sec" },
    matchClause := mcC7 }

/-- `rC7` with the authority matcher pointing at a host outside the SNI set. -/
def rC7b : RouteData :=
  { rC7 with matchClause := { mcC7 with headers := some [hdC7b] } }

/-- Well-formedness of a cache generation: every stored object carries the
key it is stored under and an allocation id older than the counter, and
objects stored under different keys are different objects. -/
def Cache.WF (c : Cache) : Prop :=
  (∀ k ro, c.find k = some ro → ro.cache_key = k ∧ ro.oid < c.next_oid) ∧
  (∀ k1 k2 r1 r2, c.find k1 = some r1 → c.find k2 = some r2 → k1 ≠ k2 →
    r1.oid ≠ r2.oid)

/-- The empty cache generation. -/
def cacheEmpty : Cache := { store := [], links := [], next_oid := 0 }

/-- A placeholder route object, same role as `junkRouteData`. -/
def junkObj : RouteObj := { oid := 0, cache_key := "", data := junkRouteData }

/-- First concrete cache request (a miss on the empty cache). -/
def step1 : RouteObj × Cache :=
  match get_route cfg0 cacheEmpty "Route-grp-m1" gRRempty mC2 with
  | .ok rc => rc
  | .error _ => (junkObj, cacheEmpty)

/-- Second concrete cache request, under a different key. -/
def step2 : RouteObj × Cache :=
  match get_route cfg0 step1.2 "Route-grp-m2" gRRempty mC1 with
  | .ok rc => rc
  | .error _ => (junkObj, cacheEmpty)

/-- Inversion of a successful compilation: the SNI stash and the match
clause must have succeeded, the artifact carries them, and it ends either
in the redirect branch or in the route branch. -/
theorem buildRoute_ok_parts {cfg : Config} {g : Group} {m : Mapping} {r : RouteData}
    (h : buildRoute cfg g m = .ok r) :
    ∃ sni mc, stashSNI g = .ok sni ∧ buildMatch cfg g m = .ok mc ∧
      r.matchClause = mc ∧ r.sni = sni ∧ r.precedence = stashPrecedence g ∧
      ((∃ hr, g.host_redirect = some hr ∧
          r = { mkBase sni g m mc with redirect := some (mkRedirectClause hr) }) ∨
       (g.host_redirect = none ∧ ∃ cl rr, clusterName m = .ok cl ∧
          generate_regex_rewrite cfg g = .ok rr ∧
          r = { mkBase sni g m mc with route := some (mkRouteClause cfg g m cl rr) })) := by
  unfold buildRoute at h
  cases hs : stashSNI g with
  | error e => rw [hs] at h; simp [Bind.bind, Except.bind] at h
  | ok sni =>
    rw [hs] at h
    cases hm : buildMatch cfg g m with
    | error e => rw [hm] at h; simp [Bind.bind, Except.bind] at h
    | ok mc =>
      rw [hm] at h
      simp only [Bind.bind, Except.bind] at h
      refine ⟨sni, mc, rfl, rfl, ?_⟩
      cases hhr : g.host_redirect with
      | some hr =>
        rw [hhr] at h
        cases h
        exact ⟨rfl, rfl, rfl, Or.inl ⟨hr, rfl, rfl⟩⟩
      | none =>
        rw [hhr] at h
        cases hcl : clusterName m with
        | error e => rw [hcl] at h; simp [Bind.bind, Except.bind] at h
        | ok cl =>
          rw [hcl] at h
          cases hrr : generate_regex_rewrite cfg g with
          | error e => rw [hrr] at h; simp [Bind.bind, Except.bind] at h
          | ok rr =>
            rw [hrr] at h
            simp only [Bind.bind, Except.bind, Except.ok.injEq] at h
            subst h
            exact ⟨rfl, rfl, rfl, Or.inr ⟨rfl, cl, rr, rfl, rfl, rfl⟩⟩

/-- Inversion of the match-clause construction. -/
theorem buildMatch_ok_parts {cfg : Config} {g : Group} {m : Mapping} {mc : MatchClause}
    (h : buildMatch cfg g m = .ok mc) :
    ∃ rk, runtimeKey m = .ok rk ∧
      mc = { case_sensitive := effCaseSensitive g m,
             runtime_fraction :=
               { numerator := m.weight.getD 100, denominator := "HUNDRED",
                 runtime_key := rk },
             pathMatch := pathMatchOf cfg g m,
             headers :=
               if (generate_headers cfg g).length > 0 then some (generate_headers cfg g)
               else none,
             query_parameters :=
               if (generate_query_parameters cfg g).length > 0 then
                 some (generate_query_parameters cfg g)
               else none } := by
  unfold buildMatch at h
  cases hk : runtimeKey m with
  | error e => rw [hk] at h; simp [Bind.bind, Except.bind] at h
  | ok rk =>
    rw [hk] at h
    simp only [Bind.bind, Except.bind, Except.ok.injEq] at h
    exact ⟨rk, rfl, h.symm⟩

/-- Characterization of a successful `runtime_key` computation. -/
theorem runtimeKey_ok_parts {m : Mapping} {rk : Option String}
    (h : runtimeKey m = .ok rk) :
    (rk.isSome ↔ 0 < m.size) ∧
    (∀ cl, m.cluster = some cl → 0 < m.size →
      rk = some ("routing.traffic_shift." ++ cl.envoy_name)) := by
  unfold runtimeKey at h
  by_cases hsz : 0 < m.size
  · rw [if_pos hsz] at h
    cases hcl : m.cluster with
    | none => rw [hcl] at h; cases h
    | some cl =>
      rw [hcl] at h
      cases h
      refine ⟨by simp [hsz], ?_⟩
      intro cl' hcl' _
      injection hcl' with he
      subst he
      rfl
  · rw [if_neg hsz] at h
    cases h
    exact ⟨by simp [hsz], fun cl hcl hsz' => absurd hsz' hsz⟩

/-- C8: for every (group, mapping) whose compilation succeeds, the match
clause's runtime fraction carries default value numerator = mapping weight
(default 100) and denominator `HUNDRED`, and carries the runtime key
`routing.traffic_shift.<cluster-name>` exactly when the mapping is
non-empty (the synthetic empty mapping gets no runtime key). -/
theorem C8_runtime_fraction (cfg : Config) (g : Group) (m : Mapping) (r : RouteData)
    (h : buildRoute cfg g m = .ok r) :
    r.matchClause.runtime_fraction.numerator = m.weight.getD 100 ∧
    r.matchClause.runtime_fraction.denominator = "HUNDRED" ∧
    (r.matchClause.runtime_fraction.runtime_key.isSome ↔ 0 < m.size) ∧
    (∀ cl, m.cluster = some cl → 0 < m.size →
      r.matchClause.runtime_fraction.runtime_key =
        some ("routing.traffic_shift." ++ cl.envoy_name)) := by
  obtain ⟨sni, mc, -, hm, hmc, -, -, -⟩ := buildRoute_ok_parts h
  obtain ⟨rk, hk, hmcEq⟩ := buildMatch_ok_parts hm
  obtain ⟨h1, h2⟩ := runtimeKey_ok_parts hk
  rw [hmc, hmcEq]
  exact ⟨rfl, rfl, h1, h2⟩

/-- Witness for C8: the redirect-only group with the synthetic empty
mapping (no runtime key), and a real weighted mapping (runtime key
present). -/
theorem C8_runtime_fraction_witness :
    buildRoute cfg0 gRed m0 = .ok rC8 ∧
    (rC8.matchClause.runtime_fraction.numerator = m0.weight.getD 100 ∧
     rC8.matchClause.runtime_fraction.denominator = "HUNDRED" ∧
     (rC8.matchClause.runtime_fraction.runtime_key.isSome ↔ 0 < m0.size) ∧
     (∀ cl, m0.cluster = some cl → 0 < m0.size →
       rC8.matchClause.runtime_fraction.runtime_key =
         some ("routing.traffic_shift." ++ cl.envoy_name))) :=
  ⟨rfl, C8_runtime_fraction cfg0 gRed m0 rC8 rfl⟩

/-- C5: when the privileged-mode flag is set, the group is regex-classified
and its recorded precedence is the sentinel `-1000000`, the match clause
carries a bounded `safe_regex` matcher with max program size 200 for the
effective path pattern — for every configuration, including one whose
global regex mode is `unsafe`. -/
theorem C5_sentinel_safe_regex (cfg : Config) (g : Group) (m : Mapping) (r : RouteData)
    (hes : cfg.edge_stack_allowed = true) (hr : g.envoy_route = .regex)
    (hp : g.precedence = some (-1000000)) (h : buildRoute cfg g m = .ok r) :
    r.matchClause.pathMatch = .regexField ("safe_regex", .bounded 200 (routePfx g m)) := by
  obtain ⟨sni, mc, -, hm, hmc, -, -, -⟩ := buildRoute_ok_parts h
  obtain ⟨rk, -, hmcEq⟩ := buildMatch_ok_parts hm
  rw [hmc, hmcEq]
  have hsp : stashPrecedence g = some (-1000000) := by
    unfold stashPrecedence
    rw [hp]
    norm_num
  show pathMatchOf cfg g m = _
  unfold pathMatchOf
  rw [hr]
  rw [if_pos ⟨by rw [hes], by rw [hsp]; rfl⟩]

/-- Witness for C5: a privileged configuration whose global regex mode is
`unsafe` still gets the hard-coded bounded matcher. -/
theorem C5_sentinel_safe_regex_witness :
    cfgU.edge_stack_allowed = true ∧ gC5.envoy_route = .regex ∧
    gC5.precedence = some (-1000000) ∧
    cfgU.ambassador_module.regex_type = some "unsafe" ∧
    buildRoute cfgU gC5 m0 = .ok rC5 ∧
    rC5.matchClause.pathMatch = .regexField ("safe_regex", .bounded 200 (routePfx gC5 m0)) :=
  ⟨rfl, rfl, rfl, rfl, rfl, C5_sentinel_safe_regex cfgU gC5 m0 rC5 rfl rfl rfl rfl⟩

/-- C6: the host-glob matcher's rules, in the matcher's case order: `*`
matches everything; a glob with a trailing `*` matches values starting with
the glob minus its last character; a glob with a leading `*` (and no
trailing `*`) matches values ending with the glob minus its first
character; any other glob matches only the identical string — with the five
concrete examples of the spec. -/
theorem C6_hostglob_rules :
    (∀ v, hostglob_matches "*" v = true) ∧
    (∀ glob v, pyEndsWith glob "*" = true →
      hostglob_matches glob v = pyStartsWith v (pyDropRight glob 1)) ∧
    (∀ glob v, pyEndsWith glob "*" = false → pyStartsWith glob "*" = true →
      hostglob_matches glob v = pyEndsWith v (pyDrop glob 1)) ∧
    (∀ glob v, pyEndsWith glob "*" = false → pyStartsWith glob "*" = false →
      (hostglob_matches glob v = true ↔ v = glob)) ∧
    hostglob_matches "*" "anything" = true ∧
    hostglob_matches "foo*" "foobar" = true ∧
    hostglob_matches "*bar" "foobar" = true ∧
    hostglob_matches "foo" "foo" = true ∧
    hostglob_matches "foo" "bar" = false := by
  refine ⟨?_, ?_, ?_, ?_, by decide, by decide, by decide, by decide, by decide⟩
  · intro v
    simp [hostglob_matches]
  · intro glob v hend
    by_cases hg : glob = "*"
    · subst hg
      have h1 : pyDropRight "*" 1 = "" := by decide
      rw [h1]
      simp [hostglob_matches, pyStartsWith, List.isPrefixOf]
    · simp [hostglob_matches, hg, hend]
  · intro glob v hend hstart
    have hg : glob ≠ "*" := by
      rintro rfl
      exact absurd hend (by decide)
    simp [hostglob_matches, hg, hend, hstart]
  · intro glob v hend hstart
    have hg : glob ≠ "*" := by
      rintro rfl
      exact absurd hend (by decide)
    simp [hostglob_matches, hg, hend, hstart]

/-- Witness for C6: the trailing-star rule and the leading-star rule each
instantiated at the spec's example pairs. -/
theorem C6_hostglob_rules_witness :
    pyEndsWith "foo*" "*" = true ∧
    hostglob_matches "foo*" "foobar" = pyStartsWith "foobar" (pyDropRight "foo*" 1) ∧
    pyEndsWith "*bar" "*" = false ∧ pyStartsWith "*bar" "*" = true ∧
    hostglob_matches "*bar" "foobar" = pyEndsWith "foobar" (pyDrop "*bar" 1) :=
  ⟨by decide, C6_hostglob_rules.2.1 "foo*" "foobar" (by decide), by decide, by decide,
    C6_hostglob_rules.2.2.1 "*bar" "foobar" (by decide) (by decide)⟩

/-- C10: a glob of length more than one that both starts and ends with `*`
takes only the trailing-wildcard branch (the leading `*` is a literal
character of the required value prefix): the matcher returns true exactly
when the value starts with the glob minus its final character; so `*foo*`
does not match `XfooY` but does match `*fooX`. -/
theorem C10_double_star_glob :
    (∀ glob v, 1 < glob.length → pyStartsWith glob "*" = true →
      pyEndsWith glob "*" = true →
      hostglob_matches glob v = pyStartsWith v (pyDropRight glob 1)) ∧
    hostglob_matches "*foo*" "XfooY" = false ∧
    hostglob_matches "*foo*" "*fooX" = true := by
  refine ⟨?_, by decide, by decide⟩
  intro glob v hlen hstart hend
  have hg : glob ≠ "*" := by
    rintro rfl
    exact absurd hlen (by decide)
  simp [hostglob_matches, hg, hend]

/-- Witness for C10 at the double-star example. -/
theorem C10_double_star_glob_witness :
    1 < ("*foo*" : String).length ∧ pyStartsWith "*foo*" "*" = true ∧
    pyEndsWith "*foo*" "*" = true ∧
    hostglob_matches "*foo*" "*fooX" = pyStartsWith "*fooX" (pyDropRight "*foo*" 1) :=
  ⟨by decide, by decide, by decide,
    C10_double_star_glob.1 "*foo*" "*fooX" (by decide) (by decide) (by decide)⟩

/-- C4: with no explicit mode and no configured global regex mode,
`regex_matcher` at its default key emits the single field `safe_regex`
carrying a bounded matcher with the configured max program size (default
200) and the raw pattern; with effective mode `unsafe` it emits the raw
pattern under the plain key with no bound. -/
theorem C4_regex_matcher_modes (cfg : Config) (p : String) :
    (cfg.ambassador_module.regex_type = none →
      regex_matcher cfg p "regex" none none =
        ("safe_regex",
          .bounded (cfg.ambassador_module.regex_max_size.getD 200) p)) ∧
    (∀ key sk, regex_matcher cfg p key sk (some "unsafe") = (key, .plain p)) := by
  constructor
  · intro h
    unfold regex_matcher
    rw [h]
    have h1 : pyToLower ((none : Option String).getD "safe") = "safe" := by decide
    rw [h1]
    rw [if_pos (by decide : ("safe" : String) ≠ "unsafe")]
    show ("safe_" ++ "regex", _) = _
    rw [show ("safe_" ++ "regex" : String) = "safe_regex" from by decide]
  · intro key sk
    unfold regex_matcher
    rw [if_neg (by simp : ¬ ("unsafe" : String) ≠ "unsafe")]

/-- Witness for C4 under the all-defaults configuration with the spec's
example pattern. -/
theorem C4_regex_matcher_modes_witness :
    cfg0.ambassador_module.regex_type = none ∧
    regex_matcher cfg0 "^/x" "regex" none none =
      ("safe_regex", .bounded (cfg0.ambassador_module.regex_max_size.getD 200) "^/x") ∧
    regex_matcher cfg0 "^/x" "regex" none (some "unsafe") = ("regex", .plain "^/x") :=
  ⟨rfl, (C4_regex_matcher_modes cfg0 "^/x").1 rfl,
    (C4_regex_matcher_modes cfg0 "^/x").2 "regex" none⟩

/-- When no header matcher qualifies, the scan leaves the base set alone. -/
theorem hostConstraintScan_of_none (hs : List HeaderMatch) (ret : Finset String)
    (h : hs.find? isAuthorityExact = none) : hostConstraintScan hs ret = ret := by
  induction hs with
  | nil => rfl
  | cons hd rest ih =>
    by_cases hp : isAuthorityExact hd = true
    · rw [List.find?_cons_of_pos _ hp] at h
      cases h
    · rw [List.find?_cons_of_neg _ hp] at h
      unfold hostConstraintScan
      cases hem : hd.exact_match with
      | none => exact ih h
      | some em =>
        have hn : ¬ hd.name = ":authority" := by
          intro hname
          exact hp (by simp [isAuthorityExact, hname, hem])
        simp only [hn, if_false]
        exact ih h

/-- The first qualifying header matcher decides the scan. -/
theorem hostConstraintScan_of_some (hs : List HeaderMatch) (ret : Finset String)
    (hd : HeaderMatch) (em : String) (h : hs.find? isAuthorityExact = some hd)
    (hem : hd.exact_match = some em) :
    hostConstraintScan hs ret =
      if ∃ glob ∈ ret, hostglob_matches glob em then {em} else ∅ := by
  induction hs with
  | nil => cases h
  | cons hd0 rest ih =>
    by_cases hp : isAuthorityExact hd0 = true
    · rw [List.find?_cons_of_pos _ hp] at h
      injection h with h0
      subst h0
      have hn : hd0.name = ":authority" := by
        simp only [isAuthorityExact, Bool.and_eq_true, decide_eq_true_eq] at hp
        exact hp.1
      unfold hostConstraintScan
      rw [hem]
      simp only [hn, if_true]
    · rw [List.find?_cons_of_neg _ hp] at h
      unfold hostConstraintScan
      cases hem0 : hd0.exact_match with
      | none => exact ih h
      | some em0 =>
        have hn : ¬ hd0.name = ":authority" := by
          intro hname
          exact hp (by simp [isAuthorityExact, hname, hem0])
        simp only [hn, if_false]
        exact ih h

/-- C7: with pruning disabled `host_constraints` returns the base set (the
recorded SNI hosts, else the universal wildcard) unchanged; with pruning
enabled, the first `:authority` exact-match header matcher narrows the
result to its literal if that literal matches some base glob, to the empty
set if it matches none, and the base set is returned unchanged when no such
matcher exists. -/
theorem C7_host_constraints (r : RouteData) :
    host_constraints r false = baseHostSet r ∧
    (∀ s, r.sni = some s → baseHostSet r = s.hosts.toFinset) ∧
    (r.sni = none → baseHostSet r = {"*"}) ∧
    ((r.matchClause.headers.getD []).find? isAuthorityExact = none →
      host_constraints r true = baseHostSet r) ∧
    (∀ hd em, (r.matchClause.headers.getD []).find? isAuthorityExact = some hd →
      hd.exact_match = some em →
      ((∃ glob ∈ baseHostSet r, hostglob_matches glob em) →
        host_constraints r true = {em}) ∧
      (¬ (∃ glob ∈ baseHostSet r, hostglob_matches glob em) →
        host_constraints r true = ∅)) := by
  refine ⟨rfl, ?_, ?_, ?_, ?_⟩
  · intro s hs
    simp [baseHostSet, hs]
  · intro hs
    simp [baseHostSet, hs]
  · intro h
    show hostConstraintScan _ _ = _
    exact hostConstraintScan_of_none _ _ h
  · intro hd em h hem
    constructor
    · intro hex
      show hostConstraintScan _ _ = _
      rw [hostConstraintScan_of_some _ _ hd em h hem, if_pos hex]
    · intro hex
      show hostConstraintScan _ _ = _
      rw [hostConstraintScan_of_some _ _ hd em h hem, if_neg hex]

/-- Witness for C7: the spec's host-pruning example, in both the matching
and the unreachable variant, plus the pruning-disabled identity. -/
theorem C7_host_constraints_witness :
    host_constraints rC7 false = baseHostSet rC7 ∧
    (rC7.matchClause.headers.getD []).find? isAuthorityExact = some hdC7 ∧
    hdC7.exact_match = some "api.example.com" ∧
    (∃ glob ∈ baseHostSet rC7, hostglob_matches glob "api.example.com") ∧
    host_constraints rC7 true = {"api.example.com"} ∧
    (¬ ∃ glob ∈ baseHostSet rC7b, hostglob_matches glob "other.example.com") ∧
    host_constraints rC7b true = ∅ :=
  ⟨(C7_host_constraints rC7).1, rfl, rfl, by decide,
    ((C7_host_constraints rC7).2.2.2.2 hdC7 "api.example.com" rfl rfl).1 (by decide),
    by decide,
    ((C7_host_constraints rC7b).2.2.2.2 hdC7b "other.example.com" rfl rfl).2 (by decide)⟩

/-- C1 (code bug): a group with no `regex_rewrite` configured does not
build its route action without failure — `generate_regex_rewrite`
dereferences the absent value (v2route.py:484 sits outside the
`if group_regex_rewrite is not None:` guard), so compilation of a
non-redirect group raises; only with a present-but-empty `regex_rewrite`
dict does the build succeed and emit the mapping's literal rewrite string
as `prefix_rewrite`, as the claim describes. -/
theorem C1_regex_rewrite_absent_raises :
    g0.regex_rewrite = none ∧ mC1.rewrite = some "/bar" ∧
    generate_regex_rewrite cfg0 g0 = .error .attributeError ∧
    buildRoute cfg0 g0 mC1 = .error .attributeError ∧
    ((okData (buildRoute cfg0 gRRempty mC1)).bind RouteData.route).map
        RouteClause.prefix_rewrite = some (some "/bar") :=
  ⟨rfl, rfl, rfl, rfl, rfl⟩

/-- C2 (code bug): the end-to-end scenario (one mapping, prefix `/foo/`,
weight 100, cluster `c1`, all timeouts unset, no redirect, no rewrite)
does not compile: the absent `regex_rewrite` makes `V2Route.__init__`
raise at v2route.py:484.  With a present-but-empty `regex_rewrite` the
compiled artifact has exactly the claimed fields: `match.prefix = "/foo/"`,
`route.timeout = "3.000s"`, `route.cluster = "c1"`, and no `idle_timeout`. -/
theorem C2_end_to_end_crash :
    buildRoute cfg0 g0 mC2 = .error .attributeError ∧
    (okData (buildRoute cfg0 gRRempty mC2)).map (fun r => r.matchClause.pathMatch) =
      some (.pfx "/foo/") ∧
    ((okData (buildRoute cfg0 gRRempty mC2)).bind RouteData.route).map
        RouteClause.timeout = some "3.000s" ∧
    ((okData (buildRoute cfg0 gRRempty mC2)).bind RouteData.route).map
        RouteClause.cluster = some "c1" ∧
    ((okData (buildRoute cfg0 gRRempty mC2)).bind RouteData.route).map
        RouteClause.idle_timeout = some none :=
  ⟨rfl, rfl, rfl, rfl, rfl⟩

/-- If a compiled artifact carries a route clause, it is the one built by
`mkRouteClause` in the non-redirect branch. -/
theorem buildRoute_route_some {cfg : Config} {g : Group} {m : Mapping}
    {r : RouteData} {rc : RouteClause}
    (h : buildRoute cfg g m = .ok r) (hrt : r.route = some rc) :
    g.host_redirect = none ∧
    ∃ cl rr, clusterName m = .ok cl ∧ generate_regex_rewrite cfg g = .ok rr ∧
      rc = mkRouteClause cfg g m cl rr := by
  obtain ⟨sni, mc, -, -, -, -, -, hbr⟩ := buildRoute_ok_parts h
  rcases hbr with ⟨hr, -, heq⟩ | ⟨hnone, cl, rr, hcl, hrr, heq⟩
  · rw [heq] at hrt
    simp [mkBase] at hrt
  · rw [heq] at hrt
    simp only [mkBase, Option.some.injEq] at hrt
    exact ⟨hnone, cl, rr, hcl, hrr, hrt.symm⟩

/-- Elimination for a non-empty hash policy: it needs a load balancer with
a hash-based policy. -/
theorem generate_hash_policy_some_elim {g : Group} {p : HashPolicy}
    (h : generate_hash_policy g = some p) :
    ∃ lb, g.load_balancer = some lb ∧
      (lb.policy = some "ring_hash" ∨ lb.policy = some "maglev") := by
  cases hlb : g.load_balancer with
  | none =>
    simp only [generate_hash_policy, hlb] at h
    exact Option.noConfusion h
  | some lb =>
    simp only [generate_hash_policy, hlb] at h
    by_cases hpol : lb.policy = some "ring_hash" ∨ lb.policy = some "maglev"
    · exact ⟨lb, rfl, hpol⟩
    · rw [if_neg hpol] at h
      cases h

/-- Characterization of `generate_hash_policy` per the source's
cookie-before-header-before-source-ip priority order. -/
theorem generate_hash_policy_spec (g : Group) :
    (g.load_balancer = none → generate_hash_policy g = none) ∧
    (∀ lb, g.load_balancer = some lb →
      ((lb.policy = some "ring_hash" ∨ lb.policy = some "maglev") →
        (∀ c, lb.cookie = some c →
          generate_hash_policy g = some (.cookie c.name c.path c.ttl)) ∧
        (lb.cookie = none → ∀ hn, lb.header = some hn →
          generate_hash_policy g = some (.headerPol hn)) ∧
        (lb.cookie = none → lb.header = none → ∀ sip, lb.source_ip = some sip →
          generate_hash_policy g = some (.connectionProperties sip)) ∧
        (lb.cookie = none → lb.header = none → lb.source_ip = none →
          generate_hash_policy g = none)) ∧
      (¬ (lb.policy = some "ring_hash" ∨ lb.policy = some "maglev") →
        generate_hash_policy g = none)) := by
  constructor
  · intro h
    simp [generate_hash_policy, h]
  · intro lb hlb
    constructor
    · intro hpol
      refine ⟨?_, ?_, ?_, ?_⟩
      · intro c hc
        simp only [generate_hash_policy, hlb]
        rw [if_pos hpol, hc]
      · intro hck hn hh
        simp only [generate_hash_policy, hlb]
        rw [if_pos hpol, hck, hh]
      · intro hck hh sip hsip
        simp only [generate_hash_policy, hlb]
        rw [if_pos hpol, hck, hh, hsip]
      · intro hck hh hsip
        simp only [generate_hash_policy, hlb]
        rw [if_pos hpol, hck, hh, hsip]
    · intro hpol
      simp only [generate_hash_policy, hlb]
      rw [if_neg hpol]

/-- C9: a compiled route clause carries `hash_policy` only when the group's
load-balancer policy is `ring_hash` or `maglev`; it is then a one-element
list holding the first configured of cookie-based, header-based, or
source-IP-based policy, in that fixed order; otherwise the field is
omitted. -/
theorem C9_hash_policy (cfg : Config) (g : Group) (m : Mapping) (r : RouteData)
    (rc : RouteClause) (h : buildRoute cfg g m = .ok r) (hrt : r.route = some rc) :
    (rc.hash_policy ≠ none →
      ∃ lb, g.load_balancer = some lb ∧
        (lb.policy = some "ring_hash" ∨ lb.policy = some "maglev")) ∧
    (∀ hp, rc.hash_policy = some hp → ∃ p, hp = [p]) ∧
    (g.load_balancer = none → rc.hash_policy = none) ∧
    (∀ lb, g.load_balancer = some lb →
      ((lb.policy = some "ring_hash" ∨ lb.policy = some "maglev") →
        (∀ c, lb.cookie = some c →
          rc.hash_policy = some [.cookie c.name c.path c.ttl]) ∧
        (lb.cookie = none → ∀ hn, lb.header = some hn →
          rc.hash_policy = some [.headerPol hn]) ∧
        (lb.cookie = none → lb.header = none → ∀ sip, lb.source_ip = some sip →
          rc.hash_policy = some [.connectionProperties sip]) ∧
        (lb.cookie = none → lb.header = none → lb.source_ip = none →
          rc.hash_policy = none)) ∧
      (¬ (lb.policy = some "ring_hash" ∨ lb.policy = some "maglev") →
        rc.hash_policy = none)) := by
  obtain ⟨-, cl, rr, -, -, hrc⟩ := buildRoute_route_some h hrt
  have hph : rc.hash_policy =
      (match generate_hash_policy g with
        | some hp => some [hp]
        | none => none) := by
    rw [hrc]
    rfl
  obtain ⟨hnone, hsome⟩ := generate_hash_policy_spec g
  refine ⟨?_, ?_, ?_, ?_⟩
  · intro hne
    cases hgp : generate_hash_policy g with
    | none => rw [hph, hgp] at hne; exact absurd rfl hne
    | some p => exact generate_hash_policy_some_elim hgp
  · intro hp hhp
    cases hgp : generate_hash_policy g with
    | none => rw [hph, hgp] at hhp; cases hhp
    | some p =>
      rw [hph, hgp] at hhp
      injection hhp with he
      exact ⟨p, he.symm⟩
  · intro hlb
    rw [hph, hnone hlb]
  · intro lb hlb
    obtain ⟨hhash, hnothash⟩ := hsome lb hlb
    constructor
    · intro hpol
      obtain ⟨h1, h2, h3, h4⟩ := hhash hpol
      refine ⟨?_, ?_, ?_, ?_⟩
      · intro c hc
        rw [hph, h1 c hc]
      · intro hck hn hh
        rw [hph, h2 hck hn hh]
      · intro hck hh sip hsip
        rw [hph, h3 hck hh sip hsip]
      · intro hck hh hsip
        rw [hph, h4 hck hh hsip]
    · intro hpol
      rw [hph, hnothash hpol]

/-- Witness for C9: a ring-hash load balancer with (only) a header
configured yields the one-element header hash policy. -/
theorem C9_hash_policy_witness :
    buildRoute cfg0 gC9 mC2 = .ok rC9 ∧ rC9.route = some rcC9 ∧
    rcC9.hash_policy = some [.headerPol "x-user"] ∧
    (rcC9.hash_policy ≠ none →
      ∃ lb, gC9.load_balancer = some lb ∧
        (lb.policy = some "ring_hash" ∨ lb.policy = some "maglev")) :=
  ⟨rfl, rfl,
    by
      have h := (((C9_hash_policy cfg0 gC9 mC2 rC9 rcC9 rfl rfl).2.2.2
        { policy := some "ring_hash", cookie := none, header := some "x-user",
          source_ip := none } rfl).1 (Or.inl rfl)).2.1 rfl "x-user" rfl
      exact h,
    (C9_hash_policy cfg0 gC9 mC2 rC9 rcC9 rfl rfl).1⟩

/-- Inversion of a cache miss in `get_route`: the artifact is freshly
compiled, gets the requested key as identity, and is stored and linked. -/
theorem get_route_miss {cfg : Config} {c : Cache} {k : String} {g : Group}
    {m : Mapping} {r' : RouteObj} {c' : Cache} (hf : c.find k = none)
    (h : get_route cfg c k g m = .ok (r', c')) :
    ∃ d, buildRoute cfg g m = .ok d ∧
      r' = { oid := c.next_oid, cache_key := k, data := d } ∧
      c' = { store := (k, { oid := c.next_oid, cache_key := k, data := d }) :: c.store,
             links := (g.group_id, c.next_oid) :: c.links,
             next_oid := c.next_oid + 1 } := by
  unfold get_route at h
  rw [hf] at h
  cases hb : buildRoute cfg g m with
  | error e => rw [hb] at h; simp [Bind.bind, Except.bind] at h
  | ok d =>
    rw [hb] at h
    simp only [Bind.bind, Except.bind, Except.ok.injEq, Prod.mk.injEq] at h
    exact ⟨d, rfl, h.1.symm, h.2.symm⟩

/-- Inversion of a cache hit in `get_route`: the stored object is returned
and the cache is untouched. -/
theorem get_route_hit {cfg : Config} {c : Cache} {k : String} {g : Group}
    {m : Mapping} {ro r' : RouteObj} {c' : Cache} (hf : c.find k = some ro)
    (h : get_route cfg c k g m = .ok (r', c')) : r' = ro ∧ c' = c := by
  unfold get_route at h
  rw [hf] at h
  simp only [Except.ok.injEq, Prod.mk.injEq] at h
  exact ⟨h.1.symm, h.2.symm⟩

/-- Lookup in a cache extended by one freshly keyed object. -/
theorem Cache.find_insert (c : Cache) (k k' : String) (ro : RouteObj)
    (links' : List (String × Nat)) (n : Nat) :
    Cache.find { store := (k, ro) :: c.store, links := links', next_oid := n } k' =
      if k = k' then some ro else c.find k' := rfl

/-- Inserting a fresh object under a previously absent key preserves cache
well-formedness. -/
theorem Cache.WF.insert {c : Cache} {k : String} {d : RouteData}
    (hwf : Cache.WF c) (_hf : c.find k = none) (links' : List (String × Nat)) :
    Cache.WF { store := (k, { oid := c.next_oid, cache_key := k, data := d }) :: c.store,
               links := links', next_oid := c.next_oid + 1 } := by
  constructor
  · intro k' ro hro
    rw [Cache.find_insert] at hro
    by_cases hk : k = k'
    · rw [if_pos hk] at hro
      injection hro with he
      subst he
      exact ⟨hk, Nat.lt_succ_self _⟩
    · rw [if_neg hk] at hro
      obtain ⟨h1, h2⟩ := hwf.1 k' ro hro
      exact ⟨h1, Nat.lt_succ_of_lt h2⟩
  · intro k1 k2 r1 r2 h1 h2 hne
    rw [Cache.find_insert] at h1 h2
    by_cases hk1 : k = k1
    · rw [if_pos hk1] at h1
      injection h1 with he1
      have hk2 : ¬ k = k2 := fun hk2 => hne (hk1.symm.trans hk2)
      rw [if_neg hk2] at h2
      have := (hwf.1 k2 r2 h2).2
      rw [← he1]
      exact Nat.ne_of_gt this
    · rw [if_neg hk1] at h1
      by_cases hk2 : k = k2
      · rw [if_pos hk2] at h2
        injection h2 with he2
        have := (hwf.1 k1 r1 h1).2
        rw [← he2]
        exact Nat.ne_of_lt this
      · rw [if_neg hk2] at h2
        exact hwf.2 k1 k2 r1 r2 h1 h2 hne

/-- C3: cache identity, on a well-formed cache generation.  The first
request under `k1` yields an artifact whose identity is `k1` and which is
stored under `k1` (with a group-to-artifact link recorded on a miss, and
the store untouched on a hit); a second request under the same key returns
the very same object and leaves the cache unchanged; a second request under
a different key never returns the same object. -/
theorem C3_cache_identity (cfg : Config) (c : Cache) (k1 k2 : String)
    (g1 g2 : Group) (m1 m2 : Mapping) (r1 r2 : RouteObj) (c1 c2 : Cache)
    (hwf : Cache.WF c)
    (h1 : get_route cfg c k1 g1 m1 = .ok (r1, c1))
    (h2 : get_route cfg c1 k2 g2 m2 = .ok (r2, c2)) :
    Cache.WF c1 ∧
    r1.cache_key = k1 ∧
    c1.find k1 = some r1 ∧
    (c.find k1 = none → (g1.group_id, r1.oid) ∈ c1.links) ∧
    (∀ ro, c.find k1 = some ro → r1 = ro ∧ c1 = c) ∧
    (k2 = k1 → r2 = r1 ∧ c2 = c1) ∧
    (k1 ≠ k2 → r1.oid ≠ r2.oid ∧ r1 ≠ r2) := by
  have main : Cache.WF c1 ∧ r1.cache_key = k1 ∧ c1.find k1 = some r1 ∧
      (c.find k1 = none → (g1.group_id, r1.oid) ∈ c1.links) ∧
      (∀ ro, c.find k1 = some ro → r1 = ro ∧ c1 = c) := by
    cases hf1 : c.find k1 with
    | none =>
      obtain ⟨d, -, hr1, hc1⟩ := get_route_miss hf1 h1
      refine ⟨?_, ?_, ?_, ?_, ?_⟩
      · rw [hc1]
        exact hwf.insert hf1 _
      · rw [hr1]
      · rw [hc1, Cache.find_insert, if_pos rfl, hr1]
      · intro _
        rw [hc1, hr1]
        exact List.mem_cons_self _ _
      · intro ro hro
        exact Option.noConfusion hro
    | some ro =>
      obtain ⟨hr1, hc1⟩ := get_route_hit hf1 h1
      obtain ⟨hkey, -⟩ := hwf.1 k1 ro hf1
      refine ⟨?_, ?_, ?_, ?_, ?_⟩
      · rw [hc1]
        exact hwf
      · rw [hr1]
        exact hkey
      · rw [hc1, hr1]
        exact hf1
      · intro hcontra
        exact Option.noConfusion hcontra
      · intro ro' hro'
        injection hro' with he
        exact ⟨hr1.trans he, hc1⟩
  obtain ⟨hwf1, hkey1, hfind1, hlink, hhit⟩ := main
  refine ⟨hwf1, hkey1, hfind1, hlink, hhit, ?_, ?_⟩
  · intro hk
    subst hk
    exact get_route_hit hfind1 h2
  · intro hne
    have hoid : r1.oid ≠ r2.oid := by
      cases hf2 : c1.find k2 with
      | none =>
        obtain ⟨d2, -, hr2, -⟩ := get_route_miss hf2 h2
        have hlt : r1.oid < c1.next_oid := (hwf1.1 k1 r1 hfind1).2
        rw [hr2]
        exact Nat.ne_of_lt hlt
      | some ro2 =>
        obtain ⟨hr2, -⟩ := get_route_hit hf2 h2
        rw [hr2]
        exact hwf1.2 k1 k2 r1 ro2 hfind1 hf2 hne
    exact ⟨hoid, fun he => hoid (he ▸ rfl)⟩

/-- The empty cache generation is well-formed. -/
theorem cacheEmpty_wf : Cache.WF cacheEmpty := by
  constructor
  · intro k ro h
    simp [cacheEmpty, Cache.find, assocFind] at h
  · intro k1 k2 r1 r2 h1 h2 hne
    simp [cacheEmpty, Cache.find, assocFind] at h1

/-- Witness for C3: two concrete requests against the empty generation,
under distinct keys, exercising the miss path twice. -/
theorem C3_cache_identity_witness :
    Cache.WF cacheEmpty ∧
    get_route cfg0 cacheEmpty "Route-grp-m1" gRRempty mC2 = .ok (step1.1, step1.2) ∧
    get_route cfg0 step1.2 "Route-grp-m2" gRRempty mC1 = .ok (step2.1, step2.2) ∧
    (Cache.WF step1.2 ∧
     step1.1.cache_key = "Route-grp-m1" ∧
     Cache.find step1.2 "Route-grp-m1" = some step1.1 ∧
     (Cache.find cacheEmpty "Route-grp-m1" = none →
       (gRRempty.group_id, step1.1.oid) ∈ step1.2.links) ∧
     (∀ ro, Cache.find cacheEmpty "Route-grp-m1" = some ro →
       step1.1 = ro ∧ step1.2 = cacheEmpty) ∧
     ("Route-grp-m2" = "Route-grp-m1" → step2.1 = step1.1 ∧ step2.2 = step1.2) ∧
     ("Route-grp-m1" ≠ "Route-grp-m2" →
       step1.1.oid ≠ step2.1.oid ∧ step1.1 ≠ step2.1)) :=
  ⟨cacheEmpty_wf, rfl, rfl,
    C3_cache_identity cfg0 cacheEmpty "Route-grp-m1" "Route-grp-m2" gRRempty gRRempty
      mC2 mC1 step1.1 step2.1 step1.2 step2.2 cacheEmpty_wf rfl rfl⟩

end AmbV2
